import Mathlib

/-!
Verification of the kubexplainer YAML service and rule-based explainer.

This file is a shallow embedding of the Python sources
`backend/app/services/yaml_service.py` (parser, resource extractor,
structural validator, manifest generator) and
`backend/app/services/explainer.py` (field-explanation lookup, summary
generator), together with theorems settling the specification's claims
about them.

Modelling conventions:
* YAML/JSON trees are the inductive type `Val` (Python `None`, `bool`,
  `int`, `str`, `list`, `dict`; a dict is an insertion-ordered association
  list with string keys, as all keys in this code base are strings).
* Python truthiness (`if not x`) is the function `truthy`.
* Python operations that can raise (`.get` on a non-dict, `x["k"]`,
  `.items()`, iteration over a non-iterable) return `Except String`,
  the error being the raised exception; code paths on which the Python
  code cannot raise are pure.
* The third-party YAML library (ruamel) is the external parser: `parse`
  takes the loader's outcome (the loaded document stream, or the raised
  message) and embeds lines 27-42 of `yaml_service.py`; serializing a
  generated tree and loading it back is the identity on the tree.
-/

/-- A parsed YAML value as the Python code manipulates it: `None`, `bool`,
`int`, `str`, `list`, or string-keyed `dict` (kept as an ordered
association list). -/
inductive Val where
  | null : Val
  | bool : Bool → Val
  | int : Int → Val
  | str : String → Val
  | arr : List Val → Val
  | obj : List (String × Val) → Val

mutual

/-- Decidable equality for `Val` (the derive handler does not support this
nested inductive, so it is spelled out). -/
def Val.decEq : (a b : Val) → Decidable (a = b)
  | .null, .null => .isTrue rfl
  | .bool x, .bool y => if h : x = y then .isTrue (by rw [h]) else .isFalse (by simp [h])
  | .int x, .int y => if h : x = y then .isTrue (by rw [h]) else .isFalse (by simp [h])
  | .str x, .str y => if h : x = y then .isTrue (by rw [h]) else .isFalse (by simp [h])
  | .arr xs, .arr ys =>
      match Val.decEqList xs ys with
      | .isTrue h => .isTrue (by rw [h])
      | .isFalse h => .isFalse (by simp [h])
  | .obj xs, .obj ys =>
      match Val.decEqObj xs ys with
      | .isTrue h => .isTrue (by rw [h])
      | .isFalse h => .isFalse (by simp [h])
  | .null, .bool _ => .isFalse (by simp)
  | .null, .int _ => .isFalse (by simp)
  | .null, .str _ => .isFalse (by simp)
  | .null, .arr _ => .isFalse (by simp)
  | .null, .obj _ => .isFalse (by simp)
  | .bool _, .null => .isFalse (by simp)
  | .bool _, .int _ => .isFalse (by simp)
  | .bool _, .str _ => .isFalse (by simp)
  | .bool _, .arr _ => .isFalse (by simp)
  | .bool _, .obj _ => .isFalse (by simp)
  | .int _, .null => .isFalse (by simp)
  | .int _, .bool _ => .isFalse (by simp)
  | .int _, .str _ => .isFalse (by simp)
  | .int _, .arr _ => .isFalse (by simp)
  | .int _, .obj _ => .isFalse (by simp)
  | .str _, .null => .isFalse (by simp)
  | .str _, .bool _ => .isFalse (by simp)
  | .str _, .int _ => .isFalse (by simp)
  | .str _, .arr _ => .isFalse (by simp)
  | .str _, .obj _ => .isFalse (by simp)
  | .arr _, .null => .isFalse (by simp)
  | .arr _, .bool _ => .isFalse (by simp)
  | .arr _, .int _ => .isFalse (by simp)
  | .arr _, .str _ => .isFalse (by simp)
  | .arr _, .obj _ => .isFalse (by simp)
  | .obj _, .null => .isFalse (by simp)
  | .obj _, .bool _ => .isFalse (by simp)
  | .obj _, .int _ => .isFalse (by simp)
  | .obj _, .str _ => .isFalse (by simp)
  | .obj _, .arr _ => .isFalse (by simp)

/-- Decidable equality for lists of values. -/
def Val.decEqList : (xs ys : List Val) → Decidable (xs = ys)
  | [], [] => .isTrue rfl
  | [], _ :: _ => .isFalse (by simp)
  | _ :: _, [] => .isFalse (by simp)
  | x :: xs, y :: ys =>
      match Val.decEq x y with
      | .isTrue h1 =>
          match Val.decEqList xs ys with
          | .isTrue h2 => .isTrue (by rw [h1, h2])
          | .isFalse h2 => .isFalse (by simp [h2])
      | .isFalse h1 => .isFalse (by simp [h1])

/-- Decidable equality for dict entry lists. -/
def Val.decEqObj : (xs ys : List (String × Val)) → Decidable (xs = ys)
  | [], [] => .isTrue rfl
  | [], _ :: _ => .isFalse (by simp)
  | _ :: _, [] => .isFalse (by simp)
  | (k1, v1) :: xs, (k2, v2) :: ys =>
      if hk : k1 = k2 then
        match Val.decEq v1 v2 with
        | .isTrue h1 =>
            match Val.decEqObj xs ys with
            | .isTrue h2 => .isTrue (by rw [hk, h1, h2])
            | .isFalse h2 => .isFalse (by simp [h2])
        | .isFalse h1 => .isFalse (by simp [h1])
      else .isFalse (by simp [hk])

end

instance : DecidableEq Val := Val.decEq

/-- Python truthiness: `None`, `False`, `0`, `""`, `[]` and an empty dict
are falsy, everything else is truthy. -/
def truthy : Val → Bool
  | .null => false
  | .bool b => b
  | .int n => n != 0
  | .str s => s != ""
  | .arr xs => !xs.isEmpty
  | .obj kvs => !kvs.isEmpty

/-- First binding of a key in a dict's entry list (Python dicts hold each
key once, so first-match lookup is dict lookup). -/
def alGet (kvs : List (String × Val)) (k : String) : Option Val :=
  (kvs.find? (fun kv => kv.1 == k)).map (fun kv => kv.2)

/-- Python `v.get(k, d)`: dict lookup with a default; on a non-dict the
attribute access raises `AttributeError`. -/
def pyGet (v : Val) (k : String) (d : Val) : Except String Val :=
  match v with
  | .obj kvs => .ok ((alGet kvs k).getD d)
  | _ => .error ("AttributeError: no attribute get (looking up " ++ k ++ ")")

/-- Whether `needle` occurs as a contiguous run inside `hay` (the empty
list occurs in everything). -/
def charsContain (needle : List Char) : List Char → Bool
  | [] => needle.isEmpty
  | c :: cs => needle.isPrefixOf (c :: cs) || charsContain needle cs

/-- Python substring test `needle in hay` on strings. -/
def strContains (hay needle : String) : Bool :=
  charsContain needle.toList hay.toList

/-- Python `hay.endswith(needle)`. -/
def strEndsWith (hay needle : String) : Bool :=
  needle.toList.isSuffixOf hay.toList

/-- Python `k in v`: key test on a dict, substring test on a string,
membership on a list; `TypeError` otherwise. -/
def pyContains (k : String) (v : Val) : Except String Bool :=
  match v with
  | .obj kvs => .ok (kvs.any (fun kv => kv.1 == k))
  | .str s => .ok (strContains s k)
  | .arr xs => .ok (xs.any (fun x => x == Val.str k))
  | _ => .error "TypeError: argument is not iterable"

/-- Python `v[k]` for a string key: dict indexing; `KeyError` when the key
is absent, `TypeError` on a non-dict. -/
def pySubscript (v : Val) (k : String) : Except String Val :=
  match v with
  | .obj kvs =>
      match alGet kvs k with
      | some x => .ok x
      | none => .error ("KeyError: " ++ k)
  | _ => .error "TypeError: not subscriptable with a string key"

/-- Python `v.items()`: the entry list of a dict; `AttributeError` on a
non-dict. -/
def pyItems (v : Val) : Except String (List (String × Val)) :=
  match v with
  | .obj kvs => .ok kvs
  | _ => .error "AttributeError: no attribute items"

/-- Python iteration (`for x in v`): the elements of a list, the one-char
strings of a string, the keys of a dict; `TypeError` otherwise. -/
def pyIter (v : Val) : Except String (List Val) :=
  match v with
  | .arr xs => .ok xs
  | .str s => .ok (s.toList.map (fun c => Val.str (String.mk [c])))
  | .obj kvs => .ok (kvs.map (fun kv => Val.str kv.1))
  | _ => .error "TypeError: object is not iterable"

mutual

/-- Python `repr` of a value (used by `str` for containers). -/
def pyRepr : Val → String
  | .null => "None"
  | .bool true => "True"
  | .bool false => "False"
  | .int n => toString n
  | .str s => "'" ++ s ++ "'"
  | .arr xs => "[" ++ String.intercalate ", " (pyReprList xs) ++ "]"
  | .obj kvs => "\x7b" ++ String.intercalate ", " (pyReprObj kvs) ++ "\x7d"

/-- `pyRepr` over the elements of a list. -/
def pyReprList : List Val → List String
  | [] => []
  | x :: xs => pyRepr x :: pyReprList xs

/-- `pyRepr` over the entries of a dict. -/
def pyReprObj : List (String × Val) → List String
  | [] => []
  | (k, v) :: kvs => ("'" ++ k ++ "': " ++ pyRepr v) :: pyReprObj kvs

end

/-- Python `str(v)`, as an f-string interpolates a value. -/
def pyStr : Val → String
  | .str s => s
  | v => pyRepr v

/-- A validation issue (`yaml_service.py` builds these as dicts with the
four keys below). -/
structure Issue where
  severity : String
  path : String
  message : String
  suggestion : String

instance : DecidableEq Issue := fun a b => by
  cases a; cases b
  exact decidable_of_iff _ (by simp [Issue.mk.injEq] at *; exact Iff.rfl)

/-- A resource as `extract_resources` builds it (lines 70-76 of
`yaml_service.py`): a dict with exactly the keys `kind`, `api_version`,
`name`, `namespace`, `content`.  `name`/`namespace` hold Python `None`
(here `Val.null`) when `metadata` lacks them. -/
structure Resource where
  kind : Val
  api_version : Val
  name : Val
  «namespace» : Val
  content : Val

instance : DecidableEq Resource := fun a b => by
  cases a; cases b
  exact decidable_of_iff _ (by simp [Resource.mk.injEq] at *; exact Iff.rfl)

/-- `YAMLService.parse` (yaml_service.py lines 17-42).  The ruamel loader
is the external parser: its outcome is the argument, either the loaded
document stream (one optional value per YAML document; `none` for a
document that loads to null) or the message of the exception it raised.
The embedded code keeps the non-null documents, reports
"No valid YAML documents found" when none remain, and turns a loader
exception into an error string that carries the loader's message.
(The `dict(doc)` conversion the source applies to each kept document is
the identity on mapping documents; on a scalar document it would raise
into the same except branch, a corner no claim touches.) -/
def parse (loaded : Except String (List (Option Val))) :
    Bool × List Val × String :=
  match loaded with
  | .error e => (false, [], "YAML parsing error: " ++ e)
  | .ok docs =>
      let documents := docs.filterMap id
      if documents.isEmpty then (false, [], "No valid YAML documents found")
      else (true, documents, "")

/-- `YAMLService.extract_resources` (lines 44-78).  Non-dict documents and
documents without truthy `kind` and `apiVersion` are skipped; for a kept
document, `name`/`namespace` come from `metadata.get(...)`, which raises
(`Except.error`) when a present `metadata` value is not a dict. -/
def extract_resources : List Val → Except String (List Resource)
  | [] => .ok []
  | doc :: rest =>
      match doc with
      | .obj kvs =>
          let kind := (alGet kvs "kind").getD .null
          let api_version := (alGet kvs "apiVersion").getD .null
          if !truthy kind || !truthy api_version then
            extract_resources rest
          else do
            let metadata := (alGet kvs "metadata").getD (.obj [])
            let name ← pyGet metadata "name" .null
            let ns ← pyGet metadata "namespace" .null
            let rs ← extract_resources rest
            .ok (⟨kind, api_version, name, ns, doc⟩ :: rs)
      | _ => extract_resources rest

/-- The static deprecated-API table of `_check_deprecated_api`
(lines 300-311): `(kind, api_version) ↦ (replacement, removed_in)`. -/
def deprecated_apis : List ((String × String) × (String × String)) :=
  [(("Deployment", "extensions/v1beta1"), ("apps/v1", "1.16")),
   (("Deployment", "apps/v1beta1"), ("apps/v1", "1.16")),
   (("Deployment", "apps/v1beta2"), ("apps/v1", "1.16")),
   (("StatefulSet", "apps/v1beta1"), ("apps/v1", "1.16")),
   (("StatefulSet", "apps/v1beta2"), ("apps/v1", "1.16")),
   (("DaemonSet", "extensions/v1beta1"), ("apps/v1", "1.16")),
   (("DaemonSet", "apps/v1beta2"), ("apps/v1", "1.16")),
   (("ReplicaSet", "extensions/v1beta1"), ("apps/v1", "1.16")),
   (("Ingress", "extensions/v1beta1"), ("networking.k8s.io/v1", "1.22")),
   (("Ingress", "networking.k8s.io/v1beta1"), ("networking.k8s.io/v1", "1.22"))]

/-- `_check_deprecated_api` (lines 298-323): the `(kind, api_version)`
pair is looked up in the static table; a hit yields a warning naming the
replacement version and the removal release. -/
def check_deprecated_api (kind : Val) (api_version : Val) : Option Issue :=
  match deprecated_apis.find?
      (fun e => kind == Val.str e.1.1 && api_version == Val.str e.1.2) with
  | some e =>
      some ⟨"warning", "apiVersion",
            pyStr kind ++ " API version '" ++ pyStr api_version ++ "' is deprecated",
            "Use '" ++ e.2.1 ++ "' instead (removed in Kubernetes " ++ e.2.2 ++ ")"⟩
  | none => none

/-- The warning `_validate_deployment` emits for a selector label that the
template labels do not carry with the same value (lines 190-195). -/
def mismatchIssue (key : String) : Issue :=
  ⟨"warning", "spec.selector.matchLabels",
   "Selector label '" ++ key ++ "' doesn't match template labels",
   "Ensure selector.matchLabels match template.metadata.labels"⟩

/-- The selector/template cross-check loop of `_validate_deployment`
(lines 188-195): one warning per selector key whose value differs from or
is missing in the template labels; `template_labels.get(key)` raises when
`template_labels` is not a dict. -/
def mismatchWarnings : List (String × Val) → Val → Except String (List Issue)
  | [], _ => .ok []
  | (key, value) :: rest, template_labels => do
      let tv ← pyGet template_labels key .null
      let tail ← mismatchWarnings rest template_labels
      if tv != value then .ok (mismatchIssue key :: tail) else .ok tail

/-- `_validate_deployment` (lines 141-197). -/
def validate_deployment (content : Val) (name : Val) :
    Except String (List Issue) := do
  let spec ← pyGet content "spec" (.obj [])
  if !truthy spec then
    pure [⟨"error", "spec", "Deployment '" ++ pyStr name ++ "' missing spec field",
           "Add spec with selector, replicas, and template"⟩]
  else do
    let hasSelector ← pyContains "selector" spec
    let selIssues : List Issue :=
      if !hasSelector then
        [⟨"error", "spec.selector", "Deployment '" ++ pyStr name ++ "' missing selector",
          "Add spec.selector.matchLabels to select pods"⟩]
      else []
    let hasTemplate ← pyContains "template" spec
    if !hasTemplate then
      pure (selIssues ++
        [⟨"error", "spec.template", "Deployment '" ++ pyStr name ++ "' missing pod template",
          "Add spec.template with pod specification"⟩])
    else do
      let template ← pySubscript spec "template"
      let template_spec ← pyGet template "spec" (.obj [])
      let containersVal ← pyGet template_spec "containers" .null
      let cIssues : List Issue :=
        if !truthy containersVal then
          [⟨"error", "spec.template.spec.containers",
            "Deployment '" ++ pyStr name ++ "' has no containers defined",
            "Add at least one container in spec.template.spec.containers"⟩]
        else []
      let selectorVal ← pyGet spec "selector" (.obj [])
      let selector_labels ← pyGet selectorVal "matchLabels" (.obj [])
      let templateMeta ← pyGet template "metadata" (.obj [])
      let template_labels ← pyGet templateMeta "labels" (.obj [])
      if truthy selector_labels && truthy template_labels then do
        let items ← pyItems selector_labels
        let warnings ← mismatchWarnings items template_labels
        pure (selIssues ++ cIssues ++ warnings)
      else
        pure (selIssues ++ cIssues)

/-- `_validate_service` (lines 199-229). -/
def validate_service (content : Val) (name : Val) :
    Except String (List Issue) := do
  let spec ← pyGet content "spec" (.obj [])
  if !truthy spec then
    pure [⟨"error", "spec", "Service '" ++ pyStr name ++ "' missing spec field",
           "Add spec with selector and ports"⟩]
  else do
    let selectorVal ← pyGet spec "selector" .null
    let selIssues ←
      if !truthy selectorVal then do
        let typeVal ← pyGet spec "type" .null
        if typeVal != Val.str "ExternalName" then
          pure [⟨"warning", "spec.selector", "Service '" ++ pyStr name ++ "' missing selector",
                 "Add spec.selector to route traffic to matching pods"⟩]
        else pure ([] : List Issue)
      else pure ([] : List Issue)
    let portsVal ← pyGet spec "ports" .null
    let portIssues : List Issue :=
      if !truthy portsVal then
        [⟨"error", "spec.ports", "Service '" ++ pyStr name ++ "' has no ports defined",
          "Add at least one port in spec.ports"⟩]
      else []
    pure (selIssues ++ portIssues)

/-- The per-container loop of `_validate_pod` (lines 254-269), with the
running `enumerate` index.  `container.get(...)` raises on a non-dict
container; the image message shows the container's `name` entry when the
key is present, else the index. -/
def podContainerIssues : Nat → List Val → Except String (List Issue)
  | _, [] => .ok []
  | idx, container :: rest => do
      let nameVal ← pyGet container "name" .null
      let nameIssues : List Issue :=
        if !truthy nameVal then
          [⟨"error", "spec.containers[" ++ toString idx ++ "].name",
            "Container at index " ++ toString idx ++ " missing name",
            "Every container must have a unique name"⟩]
        else []
      let imageVal ← pyGet container "image" .null
      let displayName : Val :=
        match container with
        | .obj kvs => (alGet kvs "name").getD (.int idx)
        | _ => .int idx
      let imageIssues : List Issue :=
        if !truthy imageVal then
          [⟨"error", "spec.containers[" ++ toString idx ++ "].image",
            "Container '" ++ pyStr displayName ++ "' missing image",
            "Specify the container image to run"⟩]
        else []
      let tail ← podContainerIssues (idx + 1) rest
      .ok (nameIssues ++ imageIssues ++ tail)

/-- `_validate_pod` (lines 231-271). -/
def validate_pod (content : Val) (name : Val) : Except String (List Issue) := do
  let spec ← pyGet content "spec" (.obj [])
  if !truthy spec then
    pure [⟨"error", "spec", "Pod '" ++ pyStr name ++ "' missing spec field",
           "Add spec with containers"⟩]
  else do
    let containersVal ← pyGet spec "containers" (.arr [])
    let emptyIssues : List Issue :=
      if !truthy containersVal then
        [⟨"error", "spec.containers", "Pod '" ++ pyStr name ++ "' has no containers defined",
          "Add at least one container in spec.containers"⟩]
      else []
    let containers ← pyIter containersVal
    let cIssues ← podContainerIssues 0 containers
    pure (emptyIssues ++ cIssues)

/-- `_validate_ingress` (lines 273-296). -/
def validate_ingress (content : Val) (name : Val) :
    Except String (List Issue) := do
  let spec ← pyGet content "spec" (.obj [])
  if !truthy spec then
    pure [⟨"error", "spec", "Ingress '" ++ pyStr name ++ "' missing spec field",
           "Add spec with rules"⟩]
  else do
    let rules ← pyGet spec "rules" (.arr [])
    if !truthy rules then do
      let db ← pyGet spec "defaultBackend" .null
      if !truthy db then
        pure [⟨"warning", "spec.rules",
               "Ingress '" ++ pyStr name ++ "' has no rules or defaultBackend",
               "Add routing rules or a default backend"⟩]
      else pure []
    else pure []

/-- The per-resource body of `validate_structure`'s loop (lines 92-136).
`resource.get("kind")`, `resource.get("content", {})` and
`resource.get("name", "unnamed")` read keys the extractor always sets, so
they are the record's fields (`name` may be `Val.null`, exactly as the
Python dict holds `None` then). -/
def resourceIssues (r : Resource) : Except String (List Issue) := do
  let kind := r.kind
  let content := r.content
  let name := r.name
  let kindIssues : List Issue :=
    if !truthy kind then
      [⟨"error", "kind", "Missing required field 'kind'",
        "Specify the resource type (e.g., Deployment, Service, Pod)"⟩]
    else []
  let apiIssues : List Issue :=
    if !truthy r.api_version then
      [⟨"error", "apiVersion", "Missing required field 'apiVersion' in " ++ pyStr kind,
        "Add apiVersion field (e.g., 'apps/v1', 'v1')"⟩]
    else []
  let metadata ← pyGet content "metadata" (.obj [])
  let mdName ← pyGet metadata "name" .null
  let nameIssues : List Issue :=
    if !truthy mdName then
      [⟨"error", "metadata.name", "Missing required field 'metadata.name' in " ++ pyStr kind,
        "Every resource must have a name"⟩]
    else []
  let kindSpecific ←
    if kind == Val.str "Deployment" then validate_deployment content name
    else if kind == Val.str "Service" then validate_service content name
    else if kind == Val.str "Pod" then validate_pod content name
    else if kind == Val.str "Ingress" then validate_ingress content name
    else pure []
  let depIssues : List Issue :=
    match check_deprecated_api kind r.api_version with
    | some i => [i]
    | none => []
  pure (kindIssues ++ apiIssues ++ nameIssues ++ kindSpecific ++ depIssues)

/-- The loop of `validate_structure` over all resources, concatenating
each resource's issues in order. -/
def collectIssues : List Resource → Except String (List Issue)
  | [] => .ok []
  | r :: rs => do
      let i ← resourceIssues r
      let tail ← collectIssues rs
      .ok (i ++ tail)

/-- `YAMLService.validate_structure` (lines 80-139): the aggregated issue
list, and `is_valid` true iff no issue has severity "error". -/
def validate_structure (resources : List Resource) :
    Except String (Bool × List Issue) := do
  let issues ← collectIssues resources
  .ok (!issues.any (fun i => i.severity == "error"), issues)

/-- The static field-explanation table `FIELD_EXPLANATIONS`
(explainer.py lines 10-180), in source insertion order — the fallback
scan of `explain_field` iterates it in exactly this order. -/
def FIELD_EXPLANATIONS : List (String × String) :=
  [("metadata", "Contains metadata about the Kubernetes object, including its name, namespace, labels, and annotations."),
   ("metadata.name", "The unique name of this resource within its namespace. Must be a valid DNS subdomain name."),
   ("metadata.namespace", "The namespace in which this resource exists. Namespaces provide scope for resource names and enable resource quotas and access control."),
   ("metadata.labels", "Key-value pairs for identifying, selecting, and grouping Kubernetes objects. Used by selectors in Services, ReplicaSets, and more."),
   ("metadata.annotations", "Non-identifying metadata stored as key-value pairs. Used for storing arbitrary information like build info, monitoring configs, or tool-specific data."),
   ("metadata.creationTimestamp", "Timestamp when this resource was created in the cluster. Set automatically by Kubernetes."),
   ("metadata.resourceVersion", "An opaque value representing the internal version of this object. Used for optimistic concurrency control."),
   ("metadata.uid", "A unique identifier for this object across the entire cluster. Generated automatically."),
   ("spec", "Defines the desired state and behavior of this resource. The actual specification varies by resource type."),
   ("spec.replicas", "Defines the desired number of pod replicas. The ReplicaSet controller ensures this many pods are running at all times."),
   ("spec.selector", "Defines how to identify pods that belong to this resource. Must match the pod template labels."),
   ("spec.selector.matchLabels", "Key-value pairs that must all match for a pod to be selected. This is an AND operation across all labels."),
   ("spec.selector.matchExpressions", "More complex label selection criteria using set-based operators like In, NotIn, Exists, and DoesNotExist."),
   ("spec.template", "Defines the pod template used to create new pods. Contains metadata and spec for the pods."),
   ("spec.template.metadata", "Metadata for pods created from this template, including labels that must match the selector."),
   ("spec.template.metadata.labels", "Labels applied to all pods created from this template. Must match the parent resource's selector."),
   ("spec.template.spec", "The specification for pods created from this template, defining containers, volumes, and pod-level settings."),
   ("spec.template.spec.containers", "List of containers to run in each pod. At least one container is required."),
   ("spec.containers", "List of containers to run in this pod. Each container runs as an isolated process within the pod's namespace."),
   ("containers[].name", "The name of this container within the pod. Must be unique within the pod and follow DNS label rules."),
   ("containers[].image", "The Docker/OCI container image to run. Format: [registry/]repository[:tag|@digest]. If no tag is specified, 'latest' is assumed."),
   ("containers[].imagePullPolicy", "Determines when the kubelet pulls the image. Options: Always (always pull), IfNotPresent (pull if not cached), Never (never pull, use cached only)."),
   ("containers[].command", "The container's entrypoint command array. Overrides the Docker image's ENTRYPOINT. If not provided, the image's ENTRYPOINT is used."),
   ("containers[].args", "Arguments passed to the container's command. Overrides the Docker image's CMD. Combined with 'command' if both are specified."),
   ("containers[].env", "Environment variables to set in the container. Can be specified directly or sourced from ConfigMaps, Secrets, or other sources."),
   ("containers[].ports", "List of ports to expose from the container. Primarily informational - doesn't prevent the container from binding to additional ports."),
   ("containers[].resources", "Compute resource requirements and limits for this container. Affects scheduling and runtime behavior."),
   ("containers[].volumeMounts", "Paths in the container's filesystem where volumes should be mounted."),
   ("containers[].livenessProbe", "Health check to determine if the container is running. If it fails repeatedly, the container is restarted."),
   ("containers[].readinessProbe", "Health check to determine if the container is ready to serve traffic. Failed probes remove the pod from service endpoints."),
   ("containers[].startupProbe", "Health check for slow-starting containers. Disables liveness/readiness probes until it succeeds, preventing premature restarts."),
   ("containers[].securityContext", "Security settings for this container, such as running as a specific user, capabilities, or read-only filesystem."),
   ("containers[].resources.requests", "Minimum resources guaranteed to this container. Used by the scheduler to place pods on nodes with sufficient capacity."),
   ("containers[].resources.limits", "Maximum resources this container can use. Container will be throttled (CPU) or killed (memory) if limits are exceeded."),
   ("containers[].resources.requests.cpu", "Minimum CPU units guaranteed. Specified in cores (e.g., '500m' = 0.5 cores). Used for scheduling."),
   ("containers[].resources.requests.memory", "Minimum memory guaranteed. Specified in bytes (e.g., '256Mi', '1Gi'). Used for scheduling."),
   ("containers[].resources.limits.cpu", "Maximum CPU units allowed. Container is throttled if it tries to exceed this. Specified in cores."),
   ("containers[].resources.limits.memory", "Maximum memory allowed. Container is killed (OOMKilled) if it exceeds this limit. Specified in bytes."),
   ("containers[].ports[].containerPort", "The port number this container listens on. Must be between 1-65535."),
   ("containers[].ports[].protocol", "The network protocol for this port. Options: TCP (default), UDP, or SCTP."),
   ("containers[].ports[].name", "Optional name for this port. Can be referenced by Services and useful for service discovery."),
   ("containers[].ports[].hostPort", "Port number on the host to forward to this container port. Limits pod scheduling to nodes where the port is available."),
   ("containers[].env[].name", "The name of the environment variable as it appears in the container."),
   ("containers[].env[].value", "The literal string value of the environment variable."),
   ("containers[].env[].valueFrom", "Source for the environment variable's value, such as a ConfigMap, Secret, or field reference."),
   ("containers[].env[].valueFrom.configMapKeyRef", "Populates the environment variable from a key in a ConfigMap."),
   ("containers[].env[].valueFrom.secretKeyRef", "Populates the environment variable from a key in a Secret. The value is kept confidential."),
   ("containers[].env[].valueFrom.fieldRef", "Populates the environment variable from a pod field like metadata.name or status.podIP."),
   ("spec.volumes", "List of volumes that can be mounted by containers in this pod. Defines storage sources."),
   ("volumes[].name", "The name of this volume. Must be unique within the pod and referenced by container volumeMounts."),
   ("volumes[].emptyDir", "A temporary directory that shares a pod's lifetime. Starts empty and is deleted when the pod is removed."),
   ("volumes[].hostPath", "Mounts a file or directory from the host node's filesystem. Useful for system-level operations but not portable."),
   ("volumes[].configMap", "Mounts a ConfigMap as files. Each key becomes a file, and its value becomes the file content."),
   ("volumes[].secret", "Mounts a Secret as files. Each key becomes a file with base64-decoded content. Used for sensitive data."),
   ("volumes[].persistentVolumeClaim", "Mounts a PersistentVolumeClaim, providing persistent storage that survives pod restarts and rescheduling."),
   ("containers[].volumeMounts[].name", "The name of the volume to mount. Must match a volume defined in spec.volumes."),
   ("containers[].volumeMounts[].mountPath", "The absolute path in the container where the volume should be mounted."),
   ("containers[].volumeMounts[].readOnly", "If true, the volume is mounted as read-only. Default is false (read-write)."),
   ("containers[].volumeMounts[].subPath", "A specific file or subdirectory within the volume to mount, rather than the entire volume."),
   ("livenessProbe.httpGet", "Performs an HTTP GET request to check container health. Success is any status code between 200-399."),
   ("readinessProbe.httpGet", "Performs an HTTP GET request to check if the container is ready for traffic."),
   ("livenessProbe.exec", "Executes a command inside the container. Exit code 0 indicates success."),
   ("readinessProbe.exec", "Executes a command to check readiness. Exit code 0 means the container is ready."),
   ("livenessProbe.tcpSocket", "Attempts to open a TCP connection to the specified port. Success means the port is open."),
   ("readinessProbe.tcpSocket", "Checks readiness by attempting a TCP connection to the specified port."),
   ("livenessProbe.initialDelaySeconds", "Number of seconds to wait after the container starts before performing the first probe."),
   ("livenessProbe.periodSeconds", "How often (in seconds) to perform the probe. Default is 10 seconds."),
   ("livenessProbe.timeoutSeconds", "Number of seconds after which the probe times out. Default is 1 second."),
   ("livenessProbe.successThreshold", "Minimum consecutive successes for the probe to be considered successful after a failure. Default is 1."),
   ("livenessProbe.failureThreshold", "Number of consecutive failures before the container is restarted (liveness) or marked unready (readiness). Default is 3."),
   ("spec.type", "Determines how the Service is exposed. Options: ClusterIP (internal only), NodePort (exposed on each node), LoadBalancer (cloud load balancer), ExternalName (DNS alias)."),
   ("spec.clusterIP", "The internal IP address assigned to this Service. Automatically assigned by Kubernetes unless explicitly set or set to 'None' for headless services."),
   ("spec.ports", "List of ports that are exposed by this Service. Each port maps a Service port to a target port on the pods."),
   ("spec.ports[].port", "The port that this Service listens on. Other services and pods connect to this port."),
   ("spec.ports[].targetPort", "The port on the pod to forward traffic to. Can be a number or a named port from the pod's port list."),
   ("spec.ports[].nodePort", "For NodePort or LoadBalancer Services, the port exposed on every node. Must be in the range 30000-32767."),
   ("spec.ports[].protocol", "The protocol for this Service port. Usually TCP or UDP."),
   ("spec.sessionAffinity", "Whether to enable session affinity. 'ClientIP' routes requests from the same client IP to the same pod. Default is 'None'."),
   ("spec.externalTrafficPolicy", "Controls how external traffic is routed. 'Cluster' (default) allows any node to handle traffic. 'Local' preserves client IPs but requires local pods."),
   ("spec.strategy", "Defines how pods are replaced during updates. Options: RollingUpdate (gradual replacement) or Recreate (all pods killed before new ones start)."),
   ("spec.strategy.type", "The deployment strategy type: RollingUpdate or Recreate."),
   ("spec.strategy.rollingUpdate", "Parameters for a rolling update strategy."),
   ("spec.strategy.rollingUpdate.maxSurge", "Maximum number of pods that can be created above the desired replica count during an update. Can be a number or percentage."),
   ("spec.strategy.rollingUpdate.maxUnavailable", "Maximum number of pods that can be unavailable during an update. Can be a number or percentage."),
   ("spec.revisionHistoryLimit", "Number of old ReplicaSets to retain for rollback purposes. Default is 10."),
   ("spec.progressDeadlineSeconds", "Maximum time in seconds for a deployment to make progress before it's considered failed. Default is 600 seconds."),
   ("spec.minReadySeconds", "Minimum number of seconds a newly created pod should be ready before it's considered available. Used to prevent flapping."),
   ("spec.rules", "List of host and path-based routing rules for this Ingress. Defines how external requests are routed to Services."),
   ("spec.rules[].host", "The fully qualified domain name for this rule. Requests to this hostname follow these routing rules."),
   ("spec.rules[].http", "HTTP-specific routing rules for this host."),
   ("spec.rules[].http.paths", "List of path-based routing rules. Requests matching a path are forwarded to the specified backend."),
   ("spec.rules[].http.paths[].path", "URL path prefix to match. Requests starting with this path are routed to the backend."),
   ("spec.rules[].http.paths[].pathType", "How to interpret the path. Options: Exact (exact match), Prefix (path prefix), ImplementationSpecific."),
   ("spec.rules[].http.paths[].backend", "The Service to route matching requests to."),
   ("spec.rules[].http.paths[].backend.service", "Specifies the Service backend for this path."),
   ("spec.rules[].http.paths[].backend.service.name", "The name of the Service to route traffic to."),
   ("spec.rules[].http.paths[].backend.service.port", "The port on the Service to forward traffic to."),
   ("spec.tls", "TLS/HTTPS configuration for this Ingress. Defines certificates and which hosts use HTTPS."),
   ("spec.tls[].hosts", "List of hosts that should use this TLS certificate."),
   ("spec.tls[].secretName", "Name of the Secret containing the TLS certificate and private key."),
   ("data", "Key-value pairs of configuration data. Each key is a filename or variable name, and each value is the content."),
   ("binaryData", "Binary data stored as base64-encoded strings. Used for non-UTF8 data like images or compiled binaries."),
   ("type", "The type of Secret. Common types: Opaque (arbitrary data), kubernetes.io/tls (TLS certificate), kubernetes.io/dockerconfigjson (Docker registry auth)."),
   ("stringData", "Key-value pairs of secret data in plain text. Automatically base64-encoded when stored. Useful for creating Secrets declaratively."),
   ("spec.accessModes", "How the volume can be mounted. Options: ReadWriteOnce (single node read-write), ReadOnlyMany (multiple nodes read-only), ReadWriteMany (multiple nodes read-write)."),
   ("spec.resources", "Resource requirements for the persistent volume, primarily storage capacity."),
   ("spec.resources.requests.storage", "The amount of storage requested. Format: '1Gi', '500Mi', '1Ti', etc."),
   ("spec.storageClassName", "The name of the StorageClass to use. Determines the type of storage (SSD, HDD, etc.) and the provisioner."),
   ("spec.volumeMode", "Defines whether the volume is a filesystem (default) or a raw block device."),
   ("spec.serviceName", "The name of the Service that governs this StatefulSet. Used for network identity of the pods."),
   ("spec.podManagementPolicy", "How pods are created and scaled. 'OrderedReady' (default) creates pods sequentially. 'Parallel' creates all pods simultaneously."),
   ("spec.volumeClaimTemplates", "Templates for PersistentVolumeClaims. Each pod gets its own persistent volume based on these templates."),
   ("spec.updateStrategy", "How DaemonSet pods are updated. 'RollingUpdate' updates pods gradually. 'OnDelete' updates only when pods are manually deleted."),
   ("spec.completions", "The desired number of successfully completed pods. Job continues until this many pods have succeeded."),
   ("spec.parallelism", "Maximum number of pods that can run in parallel. Controls job concurrency."),
   ("spec.backoffLimit", "Number of retries before considering the Job as failed. Default is 6."),
   ("spec.activeDeadlineSeconds", "Maximum duration in seconds that the Job can run. Job is terminated if it exceeds this time."),
   ("spec.schedule", "Cron schedule for running the Job. Format: 'minute hour day month weekday' (e.g., '0 0 * * *' for daily at midnight)."),
   ("spec.jobTemplate", "Template for the Job to be created on each schedule run."),
   ("spec.successfulJobsHistoryLimit", "Number of successful Job history entries to keep. Default is 3."),
   ("spec.failedJobsHistoryLimit", "Number of failed Job history entries to keep. Default is 1."),
   ("spec.concurrencyPolicy", "How to handle concurrent Job executions. Options: Allow, Forbid, Replace."),
   ("status", "The current observed state of this resource. Automatically managed by Kubernetes controllers."),
   ("status.phase", "High-level summary of where the resource is in its lifecycle."),
   ("status.conditions", "Detailed list of conditions representing the status of different aspects of the resource."),
   ("status.replicas", "The actual number of pod replicas currently running."),
   ("status.readyReplicas", "The number of pod replicas that are ready to serve traffic."),
   ("status.availableReplicas", "The number of pod replicas that are available (ready for at least minReadySeconds).")]

/-- The static resource-kind description table `RESOURCE_DESCRIPTIONS`
(explainer.py lines 183-205). -/
def RESOURCE_DESCRIPTIONS : List (String × String) :=
  [("Deployment", "Manages a replicated set of pods, providing declarative updates and rollback capabilities. Ideal for stateless applications."),
   ("Service", "Exposes a set of pods as a network service with a stable IP and DNS name. Enables service discovery and load balancing."),
   ("Pod", "The smallest deployable unit in Kubernetes, representing one or more containers that share storage and network resources."),
   ("ConfigMap", "Stores non-confidential configuration data as key-value pairs. Allows separating configuration from container images."),
   ("Secret", "Stores sensitive data such as passwords, tokens, or keys. Data is base64-encoded and can be encrypted at rest."),
   ("Ingress", "Manages external HTTP/HTTPS access to services, providing load balancing, SSL termination, and name-based virtual hosting."),
   ("PersistentVolumeClaim", "Requests storage resources from the cluster. Abstracts storage details from applications."),
   ("PersistentVolume", "Represents a piece of storage in the cluster. Can be dynamically provisioned or manually created."),
   ("StatefulSet", "Manages stateful applications requiring stable network identities, ordered deployment, and persistent storage."),
   ("DaemonSet", "Ensures a copy of a pod runs on all (or selected) nodes. Used for node-level services like logging or monitoring."),
   ("Job", "Creates one or more pods and ensures a specified number complete successfully. Used for batch processing and one-time tasks."),
   ("CronJob", "Runs Jobs on a schedule (cron format). Used for periodic tasks like backups or report generation."),
   ("ReplicaSet", "Ensures a specified number of pod replicas are running. Usually managed by Deployments rather than created directly."),
   ("Namespace", "Provides scope for resource names and enables multi-tenancy. Resources in one namespace are isolated from others."),
   ("ServiceAccount", "Provides an identity for processes running in pods, used for API authentication and authorization."),
   ("Role", "Defines permissions within a namespace. Contains rules that represent a set of permissions."),
   ("ClusterRole", "Like Role, but cluster-wide. Can grant access to cluster-scoped resources or across all namespaces."),
   ("RoleBinding", "Grants permissions defined in a Role to users or ServiceAccounts within a namespace."),
   ("ClusterRoleBinding", "Grants permissions defined in a ClusterRole at the cluster level."),
   ("HorizontalPodAutoscaler", "Automatically scales the number of pods based on observed CPU/memory utilization or custom metrics."),
   ("NetworkPolicy", "Defines how groups of pods can communicate with each other and external endpoints. Provides network segmentation.")]

/-- The maximal leading run of decimal digits and the rest. -/
def takeDigits : List Char → List Char × List Char
  | [] => ([], [])
  | c :: cs =>
      if c.isDigit then
        let r := takeDigits cs
        (c :: r.1, r.2)
      else ([], c :: cs)

/-- The rest after the digit run is never longer than the input. -/
theorem takeDigits_len (cs : List Char) : (takeDigits cs).2.length ≤ cs.length := by
  induction cs with
  | nil => simp [takeDigits]
  | cons c cs ih =>
      by_cases h : c.isDigit
      · simp [takeDigits, h]
        omega
      · simp [takeDigits, h]

/-- `re.sub(r'\.\d+\.', '[].', path)` (explainer.py line 231), with fuel
so that the recursion is structural and kernel-reducible: scanning left
to right, each non-overlapping occurrence of a dot, one or more digits
and a dot becomes `[].`, and the scan resumes after the consumed second
dot.  Every step consumes at least one input character (by
`takeDigits_len`), so fuel `cs.length` never runs out. -/
def eraseIdxGo : Nat → List Char → List Char
  | 0, cs => cs
  | _ + 1, [] => []
  | fuel + 1, c :: cs =>
      if c = '.' then
        match takeDigits cs with
        | (_ :: _, '.' :: rest) => '[' :: ']' :: '.' :: eraseIdxGo fuel rest
        | _ => '.' :: eraseIdxGo fuel cs
      else c :: eraseIdxGo fuel cs

/-- The first `re.sub` of the normalization, at full fuel. -/
def eraseIndexDots (cs : List Char) : List Char := eraseIdxGo cs.length cs

/-- `re.sub(r'\.\d+$', '[]', s)` (explainer.py line 232): a trailing dot
followed only by digits becomes `[]`. -/
def eraseTrailingIndex (cs : List Char) : List Char :=
  match takeDigits cs.reverse with
  | (_ :: _, '.' :: rest) => rest.reverse ++ ['[', ']']
  | _ => cs

/-- The array-index erasure of `explain_field` (lines 230-232). -/
def normalize_array_path (path : String) : String :=
  String.mk (eraseTrailingIndex (eraseIndexDots path.toList))

/-- `K8sExplainer.explain_field` (explainer.py lines 214-249): exact table
hit, then the endswith/substring scan over the table in insertion order
against the array-normalized path, then the keyword fallbacks on the raw
path, else none.  The `value` argument is accepted and ignored, as in the
source. -/
def explain_field (path : String) (value : Val) : Option String :=
  match (FIELD_EXPLANATIONS.find? (fun kv => kv.1 == path)).map (fun kv => kv.2) with
  | some e => some e
  | none =>
      let array_path := normalize_array_path path
      match FIELD_EXPLANATIONS.find?
          (fun kv => strEndsWith array_path kv.1 || strContains array_path kv.1) with
      | some kv => some kv.2
      | none =>
          let lower := path.toLower
          if strContains lower "name" then
            some "The name identifier for this resource or sub-resource."
          else if strContains lower "namespace" then
            some "The namespace scope for this resource."
          else if strContains lower "label" then
            some "Labels are key-value pairs used for identification and selection."
          else if strContains lower "annotation" then
            some "Annotations store arbitrary non-identifying metadata."
          else none

/-- `K8sExplainer.explain_resource` (lines 251-253); the argument is the
`kind` value read out of a resource dict, so it is a `Val`. -/
def explain_resource (kind : Val) : Option String :=
  (RESOURCE_DESCRIPTIONS.find? (fun kv => kind == Val.str kv.1)).map (fun kv => kv.2)

/-- The dict `extract_resources` appends for a resource (yaml_service.py
lines 70-76); `generate_summary` receives these dicts. -/
def resourceDict (r : Resource) : List (String × Val) :=
  [("kind", r.kind), ("api_version", r.api_version), ("name", r.name),
   ("namespace", r.«namespace»), ("content", r.content)]

/-- One resource's summary lines (explainer.py lines 262-269).
`resource.get("kind", "Unknown")` reads the dict of `resourceDict`;
`resource.get("metadata", {})` reads a key that dict never carries, so the
`{}` default always applies and the printed name is always the
`"unnamed"` default. -/
def summaryParts : List Resource → Nat → List String
  | [], _ => []
  | r :: rest, idx =>
      let kind := (alGet (resourceDict r) "kind").getD (.str "Unknown")
      let metadata := (alGet (resourceDict r) "metadata").getD (.obj [])
      let name :=
        match metadata with
        | .obj kvs => (alGet kvs "name").getD (.str "unnamed")
        | _ => .str "unnamed"
      let line := "\n" ++ toString idx ++ ". **" ++ pyStr kind ++ "** named '" ++ pyStr name ++ "'"
      let descLines :=
        match explain_resource kind with
        | some d => ["   - " ++ d]
        | none => []
      (line :: descLines) ++ summaryParts rest (idx + 1)

/-- `K8sExplainer.generate_summary` (explainer.py lines 255-271): the
fixed sentence for an empty list, else the header part and each
resource's parts joined with newlines (each resource line itself starts
with a newline, as in the source). -/
def generate_summary (resources : List Resource) : String :=
  if resources.isEmpty then "No resources found in the manifest."
  else String.intercalate "\n" ("This Kubernetes manifest contains:" :: summaryParts resources 1)

/-- `config.get(k, d)` on the generator's configuration dict (always a
dict, so the lookup is total). -/
def cfgGet (config : List (String × Val)) (k : String) (d : Val) : Val :=
  (alGet config k).getD d

/-- `_generate_deployment` (yaml_service.py lines 358-398). -/
def generate_deployment (config : List (String × Val)) : Val :=
  let name := cfgGet config "name" (.str "my-deployment")
  let image := cfgGet config "image" (.str "nginx:latest")
  let replicas := cfgGet config "replicas" (.int 3)
  let port := cfgGet config "port" (.int 80)
  .obj [("apiVersion", .str "apps/v1"),
        ("kind", .str "Deployment"),
        ("metadata", .obj [("name", name), ("labels", .obj [("app", name)])]),
        ("spec", .obj
          [("replicas", replicas),
           ("selector", .obj [("matchLabels", .obj [("app", name)])]),
           ("template", .obj
             [("metadata", .obj [("labels", .obj [("app", name)])]),
              ("spec", .obj
                [("containers", .arr
                  [.obj [("name", name), ("image", image),
                         ("ports", .arr [.obj [("containerPort", port)]])]])])])])]

/-- `_generate_service` (lines 400-425). -/
def generate_service (config : List (String × Val)) : Val :=
  let name := cfgGet config "name" (.str "my-service")
  let app_label := cfgGet config "app" name
  let port := cfgGet config "port" (.int 80)
  let target_port := cfgGet config "targetPort" port
  let service_type := cfgGet config "type" (.str "ClusterIP")
  .obj [("apiVersion", .str "v1"),
        ("kind", .str "Service"),
        ("metadata", .obj [("name", name)]),
        ("spec", .obj
          [("selector", .obj [("app", app_label)]),
           ("type", service_type),
           ("ports", .arr
             [.obj [("port", port), ("targetPort", target_port),
                    ("protocol", .str "TCP")]])])]

/-- `_generate_ingress` (lines 427-460). -/
def generate_ingress (config : List (String × Val)) : Val :=
  let name := cfgGet config "name" (.str "my-ingress")
  let host := cfgGet config "host" (.str "example.com")
  let service_name := cfgGet config "serviceName" (.str "my-service")
  let service_port := cfgGet config "servicePort" (.int 80)
  let path := cfgGet config "path" (.str "/")
  .obj [("apiVersion", .str "networking.k8s.io/v1"),
        ("kind", .str "Ingress"),
        ("metadata", .obj [("name", name)]),
        ("spec", .obj
          [("rules", .arr
            [.obj [("host", host),
                   ("http", .obj
                     [("paths", .arr
                       [.obj [("path", path),
                              ("pathType", .str "Prefix"),
                              ("backend", .obj
                                [("service", .obj
                                  [("name", service_name),
                                   ("port", .obj [("number", service_port)])])])]])])]])])]

/-- `_generate_configmap` (lines 462-474). -/
def generate_configmap (config : List (String × Val)) : Val :=
  let name := cfgGet config "name" (.str "my-config")
  let data := cfgGet config "data" (.obj [("key", .str "value")])
  .obj [("apiVersion", .str "v1"),
        ("kind", .str "ConfigMap"),
        ("metadata", .obj [("name", name)]),
        ("data", data)]

/-- `YAMLService.generate_yaml` (lines 325-356).  The built tree stands in
for its YAML serialization (the dump/load round trip through the external
YAML library is the identity on these trees); for an unknown type the
Python code returns the empty string in the content slot, modelled as
`Val.null`. -/
def generate_yaml (resource_type : String) (config : List (String × Val)) :
    Bool × Val × String :=
  if resource_type == "deployment" then (true, generate_deployment config, "")
  else if resource_type == "service" then (true, generate_service config, "")
  else if resource_type == "ingress" then (true, generate_ingress config, "")
  else if resource_type == "configmap" then (true, generate_configmap config, "")
  else (false, .null, "Unknown resource type: " ++ resource_type)

/-! ## Concrete inputs used by the claim theorems -/

/-- The configuration map of the spec's end-to-end example:
`{"name": "api", "image": "myimg:1", "replicas": 2}`. -/
def apiConfig : List (String × Val) :=
  [("name", .str "api"), ("image", .str "myimg:1"), ("replicas", .int 2)]

/-- The Deployment tree generated from `apiConfig`. -/
def apiDeployment : Val := generate_deployment apiConfig

/-- The resource `extract_resources` produces from `apiDeployment`. -/
def apiResource : Resource :=
  ⟨.str "Deployment", .str "apps/v1", .str "api", .null, apiDeployment⟩

/-- A well-formed Deployment document named `web` (selector and template
labels agree, one container with name and image), with the given
`apiVersion`. -/
def deployContentWeb (api : String) : Val :=
  .obj [("apiVersion", .str api),
        ("kind", .str "Deployment"),
        ("metadata", .obj [("name", .str "web")]),
        ("spec", .obj
          [("selector", .obj [("matchLabels", .obj [("app", .str "web")])]),
           ("template", .obj
             [("metadata", .obj [("labels", .obj [("app", .str "web")])]),
              ("spec", .obj
                [("containers", .arr [.obj [("name", .str "web"), ("image", .str "nginx")]])])])])]

/-- The resource extracted from `deployContentWeb api`. -/
def depResource (api : String) : Resource :=
  ⟨.str "Deployment", .str api, .str "web", .null, deployContentWeb api⟩

/-- A Deployment document whose selector labels are non-empty but whose
pod template carries no labels at all. -/
def deployContentNoTplLabels : Val :=
  .obj [("apiVersion", .str "apps/v1"),
        ("kind", .str "Deployment"),
        ("metadata", .obj [("name", .str "web")]),
        ("spec", .obj
          [("selector", .obj [("matchLabels", .obj [("app", .str "web")])]),
           ("template", .obj
             [("metadata", .obj []),
              ("spec", .obj
                [("containers", .arr [.obj [("name", .str "web"), ("image", .str "nginx")]])])])])]

/-- A document that looks like a resource but whose `metadata` value is a
string rather than a mapping. -/
def badMetadataDoc : Val :=
  .obj [("kind", .str "Pod"), ("apiVersion", .str "v1"), ("metadata", .str "oops")]

/-! ## C1 — path normalization and lookup order in `explain_field` -/

/-- C1 (counterexample): at the concrete value `"nginx:1.25"` the two calls
of the claim return different explanation texts, so they are not equal as
the claim states. -/
theorem C1_counterexample :
    explain_field "spec.template.spec.containers.0.image" (Val.str "nginx:1.25") ≠
      explain_field "containers[].image" (Val.str "nginx:1.25") := by decide

/-- C1 (amended): `explain_field` performs no exact re-check of the
normalized path; after array-index erasure it goes straight to the
endswith/substring scan over the table in insertion order.  For
`"spec.template.spec.containers.0.image"` (normalized
`"spec.template.spec.containers[].image"`) the first table key contained
in the normalized path is `"spec"`, so the `"spec"` explanation is
returned, while `"containers[].image"` hits its own entry by direct
lookup — the two results differ, for every value argument. -/
theorem C1_lookup_results (v : Val) :
    explain_field "spec.template.spec.containers.0.image" v =
      some "Defines the desired state and behavior of this resource. The actual specification varies by resource type." ∧
    explain_field "containers[].image" v =
      some "The Docker/OCI container image to run. Format: [registry/]repository[:tag|@digest]. If no tag is specified, 'latest' is assumed." :=
  ⟨rfl, rfl⟩

/-- C1 (witness): the two lookup results of `C1_lookup_results` at the
concrete value `"nginx"`. -/
theorem C1_lookup_results_witness :
    explain_field "spec.template.spec.containers.0.image" (Val.str "nginx") =
      some "Defines the desired state and behavior of this resource. The actual specification varies by resource type." ∧
    explain_field "containers[].image" (Val.str "nginx") =
      some "The Docker/OCI container image to run. Format: [registry/]repository[:tag|@digest]. If no tag is specified, 'latest' is assumed." :=
  C1_lookup_results (Val.str "nginx")

/-! ## C2 — `generate_summary` on extracted resources -/

/-- C2: the summary line prints the `"unnamed"` default although the
extracted resource has name `"api"`: `generate_summary` reads the name
from `resource["metadata"]["name"]`, but an extracted resource dict keeps
the name under the top-level `"name"` key and has no `"metadata"` key at
all, so the `.get("metadata", {})` default always applies. -/
theorem C2_summary_prints_unnamed :
    apiResource.name = Val.str "api" ∧
    generate_summary [apiResource] =
      "This Kubernetes manifest contains:\n\n1. **Deployment** named 'unnamed'\n   - Manages a replicated set of pods, providing declarative updates and rollback capabilities. Ideal for stateless applications." :=
  ⟨rfl, rfl⟩

/-! ## C4 — `extract_resources` and non-mapping `metadata` -/

/-- C4: a kept document (truthy `kind` and `apiVersion`) whose `metadata`
is the string `"oops"` makes `metadata.get("name")` raise, so
`extract_resources` does not return a list; a document that is skipped
for lacking `kind` never reaches the metadata access and raises
nothing. -/
theorem C4_extract_raises_on_nonmapping_metadata :
    extract_resources [badMetadataDoc] =
      .error "AttributeError: no attribute get (looking up name)" ∧
    extract_resources [.obj [("metadata", .str "oops")]] = .ok [] :=
  ⟨rfl, rfl⟩

/-! ## C7 — deprecated-API detection -/

/-- C7: the `(Deployment, extensions/v1beta1)` pair yields the deprecation
warning naming `apps/v1` and release 1.16, `(Deployment, apps/v1)` yields
none; on a fully well-formed Deployment resource the deprecated pair
produces exactly that one warning (and the resource stays valid), the
current pair produces no issue at all — the check is keyed on the static
table, independent of the kind-specific checks. -/
theorem C7_deprecated_api_detection :
    check_deprecated_api (Val.str "Deployment") (Val.str "extensions/v1beta1") =
      some ⟨"warning", "apiVersion",
            "Deployment API version 'extensions/v1beta1' is deprecated",
            "Use 'apps/v1' instead (removed in Kubernetes 1.16)"⟩ ∧
    check_deprecated_api (Val.str "Deployment") (Val.str "apps/v1") = none ∧
    validate_structure [depResource "extensions/v1beta1"] =
      .ok (true, [⟨"warning", "apiVersion",
            "Deployment API version 'extensions/v1beta1' is deprecated",
            "Use 'apps/v1' instead (removed in Kubernetes 1.16)"⟩]) ∧
    validate_structure [depResource "apps/v1"] = .ok (true, []) :=
  ⟨rfl, rfl, rfl, rfl⟩

/-! ## C9 — `parse` failure modes -/

/-- C9: when the loader yields no non-null document (empty manifest text,
or documents that all load to null) `parse` returns `ok = false` with
exactly "No valid YAML documents found"; when the loader raises, `parse`
returns `ok = false` with an error string that contains the loader's
message, and in both cases it returns rather than raising (it is a total
function). -/
theorem C9_parse_failure_modes :
    (∀ docs : List (Option Val), docs.filterMap id = [] →
      parse (Except.ok docs) = (false, [], "No valid YAML documents found")) ∧
    (∀ e : String,
      parse (Except.error e) = (false, [], "YAML parsing error: " ++ e) ∧
      List.IsInfix e.toList ("YAML parsing error: " ++ e).toList) := by
  constructor
  · intro docs h
    simp [parse, h]
  · intro e
    exact ⟨rfl, ⟨"YAML parsing error: ".toList, [], by simp [String.toList]⟩⟩

/-- C9 (witness): the empty stream and the one-null-document stream hit
the exact no-documents message, and a loader exception message `boom` is
contained in the returned error string. -/
theorem C9_parse_failure_modes_witness :
    parse (Except.ok []) = (false, [], "No valid YAML documents found") ∧
    parse (Except.ok [(none : Option Val)]) = (false, [], "No valid YAML documents found") ∧
    (parse (Except.error "boom") = (false, [], "YAML parsing error: boom") ∧
      List.IsInfix "boom".toList ("YAML parsing error: " ++ "boom").toList) :=
  ⟨(C9_parse_failure_modes.1 [] rfl),
   (C9_parse_failure_modes.1 [none] rfl),
   (C9_parse_failure_modes.2 "boom")⟩

/-! ## C5 — generator round-trip -/

/-- C5: for every configuration map and each of the four supported
generator types, loading the generated tree back through `parse` and
`extract_resources` reproduces exactly one resource whose `kind`,
`api_version` and `name` are the generated tree's own (`namespace` is
null, the content is the tree itself); and for the spec's end-to-end
example configuration the extracted Deployment is named `"api"` and
validates with `is_valid = true` and zero issues. -/
theorem C5_generator_roundtrip :
    (∀ config : List (String × Val),
      (parse (Except.ok [some (generate_deployment config)]) =
          (true, [generate_deployment config], "") ∧
        extract_resources [generate_deployment config] =
          .ok [⟨Val.str "Deployment", Val.str "apps/v1",
                cfgGet config "name" (Val.str "my-deployment"), Val.null,
                generate_deployment config⟩]) ∧
      (parse (Except.ok [some (generate_service config)]) =
          (true, [generate_service config], "") ∧
        extract_resources [generate_service config] =
          .ok [⟨Val.str "Service", Val.str "v1",
                cfgGet config "name" (Val.str "my-service"), Val.null,
                generate_service config⟩]) ∧
      (parse (Except.ok [some (generate_ingress config)]) =
          (true, [generate_ingress config], "") ∧
        extract_resources [generate_ingress config] =
          .ok [⟨Val.str "Ingress", Val.str "networking.k8s.io/v1",
                cfgGet config "name" (Val.str "my-ingress"), Val.null,
                generate_ingress config⟩]) ∧
      (parse (Except.ok [some (generate_configmap config)]) =
          (true, [generate_configmap config], "") ∧
        extract_resources [generate_configmap config] =
          .ok [⟨Val.str "ConfigMap", Val.str "v1",
                cfgGet config "name" (Val.str "my-config"), Val.null,
                generate_configmap config⟩])) ∧
    (generate_yaml "deployment" apiConfig = (true, apiDeployment, "") ∧
      extract_resources [apiDeployment] = .ok [apiResource] ∧
      apiResource.kind = Val.str "Deployment" ∧
      apiResource.name = Val.str "api" ∧
      validate_structure [apiResource] = .ok (true, [])) :=
  ⟨fun _ => ⟨⟨rfl, rfl⟩, ⟨rfl, rfl⟩, ⟨rfl, rfl⟩, ⟨rfl, rfl⟩⟩,
   rfl, rfl, rfl, rfl, rfl⟩

/-! ## C6 — validity is exactly absence of error-severity issues -/

/-- C6: whenever `validate_structure` returns, the returned `is_valid`
flag is true exactly when no returned issue has severity "error";
warnings and infos never affect it. -/
theorem C6_is_valid_iff_no_error (resources : List Resource) (valid : Bool)
    (issues : List Issue)
    (h : validate_structure resources = .ok (valid, issues)) :
    valid = true ↔ ∀ i ∈ issues, i.severity ≠ "error" := by
  unfold validate_structure at h
  cases hc : collectIssues resources with
  | error e => rw [hc] at h; exact absurd h (by simp [Bind.bind, Except.bind])
  | ok is =>
      rw [hc] at h
      simp only [Bind.bind, Except.bind, Except.ok.injEq, Prod.mk.injEq] at h
      obtain ⟨hv, hi⟩ := h
      subst hi
      rw [← hv]
      simp [List.any_eq_false, Bool.not_eq_true']

/-- C6 (witness): the empty resource list validates as `.ok (true, [])`,
and the equivalence instantiates there. -/
theorem C6_is_valid_iff_no_error_witness :
    validate_structure [] = Except.ok (true, []) ∧
    (true = true ↔ ∀ i ∈ ([] : List Issue), i.severity ≠ "error") :=
  ⟨rfl, C6_is_valid_iff_no_error [] true [] rfl⟩

/-! ## C3 — selector/template label cross-check -/

/-- The pure value of the cross-check loop when the template labels are a
dict: one warning per selector key whose template value (null when
missing) differs. -/
def mismatchList : List (String × Val) → List (String × Val) → List Issue
  | [], _ => []
  | (k, v) :: rest, tpl =>
      if (alGet tpl k).getD Val.null != v then mismatchIssue k :: mismatchList rest tpl
      else mismatchList rest tpl

/-- On a dict of template labels the loop never raises and computes
`mismatchList`. -/
theorem mismatchWarnings_obj (sel tpl : List (String × Val)) :
    mismatchWarnings sel (Val.obj tpl) = .ok (mismatchList sel tpl) := by
  induction sel with
  | nil => rfl
  | cons kv rest ih =>
      obtain ⟨k, v⟩ := kv
      simp only [mismatchWarnings, mismatchList, pyGet, Bind.bind, Except.bind, ih]
      split <;> rfl

/-- A selector entry whose value differs from the template's value for
that key contributes its warning to `mismatchList`. -/
theorem mismatchIssue_mem {sel tpl : List (String × Val)} {k : String} {v : Val}
    (hmem : (k, v) ∈ sel) (hdiff : (alGet tpl k).getD Val.null ≠ v) :
    mismatchIssue k ∈ mismatchList sel tpl := by
  induction sel with
  | nil => cases hmem
  | cons kv rest ih =>
      obtain ⟨k', v'⟩ := kv
      rcases List.mem_cons.mp hmem with h | h
      · obtain ⟨hk, hv⟩ := Prod.mk.injEq .. ▸ h
        subst hk; subst hv
        rw [mismatchList, if_pos (by simpa [bne_iff_ne] using hdiff)]
        exact List.mem_cons_self _ _
      · rw [mismatchList]
        split
        · exact List.mem_cons_of_mem _ (ih h)
        · exact ih h

/-- C3 (amended): the cross-check runs only when both the selector's
`matchLabels` and the template's labels are non-empty dicts; then every
selector key whose value is missing from or different in the template
labels gets its warning in the returned issue list.  (When the template
labels are absent or empty the whole cross-check is skipped — see the
counterexample.)  The hypotheses spell out the accesses
`_validate_deployment` performs on the way to the cross-check. -/
theorem C3_mismatch_warning_when_labels_nonempty
    (content name spec template tspec cs selv md : Val)
    (sel tpl : List (String × Val)) (k : String) (v : Val)
    (hspec : pyGet content "spec" (Val.obj []) = .ok spec)
    (hts : truthy spec = true)
    (hsel : pyContains "selector" spec = .ok true)
    (htpl : pyContains "template" spec = .ok true)
    (hsub : pySubscript spec "template" = .ok template)
    (htspec : pyGet template "spec" (Val.obj []) = .ok tspec)
    (hcs : pyGet tspec "containers" Val.null = .ok cs)
    (hselv : pyGet spec "selector" (Val.obj []) = .ok selv)
    (hml : pyGet selv "matchLabels" (Val.obj []) = .ok (Val.obj sel))
    (hmd : pyGet template "metadata" (Val.obj []) = .ok md)
    (hlb : pyGet md "labels" (Val.obj []) = .ok (Val.obj tpl))
    (hselne : sel ≠ []) (htplne : tpl ≠ [])
    (hmem : (k, v) ∈ sel)
    (hdiff : (alGet tpl k).getD Val.null ≠ v) :
    ∃ issues, validate_deployment content name = .ok issues ∧
      mismatchIssue k ∈ issues := by
  unfold validate_deployment
  rw [hspec]
  simp only [Bind.bind, Except.bind, hts, Bool.not_true, Bool.false_eq_true, if_false]
  rw [hsel]
  simp only [Bool.not_true, Bool.false_eq_true, if_false]
  rw [htpl]
  simp only [Bool.not_true, Bool.false_eq_true, if_false]
  rw [hsub]
  simp only [Bind.bind, Except.bind]
  rw [htspec]
  simp only [Bind.bind, Except.bind]
  rw [hcs]
  simp only [Bind.bind, Except.bind]
  rw [hselv]
  simp only [Bind.bind, Except.bind]
  rw [hml]
  simp only [Bind.bind, Except.bind]
  rw [hmd]
  simp only [Bind.bind, Except.bind]
  rw [hlb]
  simp only [Bind.bind, Except.bind, truthy, pyItems]
  rw [mismatchWarnings_obj]
  simp only [Bind.bind, Except.bind, pure, Except.pure]
  have hse : sel.isEmpty = false := by simpa using hselne
  have hte : tpl.isEmpty = false := by simpa using htplne
  rw [hse, hte]
  simp only [Bool.not_false, Bool.and_self]
  rw [if_pos trivial]
  refine ⟨_, rfl, ?_⟩
  simp only [List.nil_append, List.mem_append]
  exact Or.inr (mismatchIssue_mem hmem hdiff)

/-- C3 (counterexample): a Deployment with `spec`, `spec.selector` and
`spec.template`, selector label `app: web`, and a pod template carrying
no labels at all — the claim demands a warning for the key `app`, but
`validate_structure` returns no issue whatsoever (the cross-check is
skipped because the template labels are empty). -/
theorem C3_counterexample :
    validate_structure
        [⟨Val.str "Deployment", Val.str "apps/v1", Val.str "web", Val.null,
          deployContentNoTplLabels⟩] = .ok (true, []) := rfl

/-- The template part of the C3 witness Deployment: labels `tier: api`. -/
def c3Tspec : Val :=
  .obj [("containers", .arr [.obj [("name", .str "c"), ("image", .str "i")]])]

/-- The pod template of the C3 witness Deployment. -/
def c3Template : Val :=
  .obj [("metadata", .obj [("labels", .obj [("tier", .str "api")])]),
        ("spec", c3Tspec)]

/-- The selector of the C3 witness Deployment: `matchLabels app: web`. -/
def c3Selector : Val := .obj [("matchLabels", .obj [("app", .str "web")])]

/-- The spec of the C3 witness Deployment. -/
def c3Spec : Val := .obj [("selector", c3Selector), ("template", c3Template)]

/-- The C3 witness Deployment content: selector label `app: web`,
template labels `tier: api` (so `app` is missing there). -/
def c3Content : Val := .obj [("spec", c3Spec)]

/-- C3 (witness): on the concrete Deployment `c3Content` the selector key
`app` is missing from the template labels and its warning is in the
returned issues. -/
theorem C3_mismatch_warning_witness :
    ∃ issues, validate_deployment c3Content (Val.str "web") = .ok issues ∧
      mismatchIssue "app" ∈ issues :=
  C3_mismatch_warning_when_labels_nonempty c3Content (Val.str "web") c3Spec
    c3Template c3Tspec (.arr [.obj [("name", .str "c"), ("image", .str "i")]])
    c3Selector (.obj [("labels", .obj [("tier", .str "api")])])
    [("app", .str "web")] [("tier", .str "api")] "app" (.str "web")
    rfl rfl rfl rfl rfl rfl rfl rfl rfl rfl rfl
    (by decide) (by decide) (by decide) (by decide)


/-! ## C8 — Pod container missing image -/

/-- `==` on two string values is string equality. -/
theorem val_str_beq (a b : String) : (Val.str a == Val.str b) = (a == b) := by
  by_cases h : a = b <;> simp [h]

/-- No `(Pod, _)` pair is in the deprecation table, so the deprecated-API
check is silent on Pods whatever the api version. -/
theorem check_deprecated_api_pod (api : Val) :
    check_deprecated_api (Val.str "Pod") api = none := by
  simp [check_deprecated_api, deprecated_apis, List.find?, val_str_beq]

/-- `get` on a dict value, unfolded. -/
theorem pyGet_obj (kvs : List (String × Val)) (k : String) (d : Val) :
    pyGet (Val.obj kvs) k d = .ok ((alGet kvs k).getD d) := rfl

/-- Truthiness of a string value. -/
theorem truthy_str (s : String) : truthy (Val.str s) = (s != "") := rfl

/-- A non-empty list value is truthy. -/
theorem truthy_arr_cons (x : Val) (xs : List Val) :
    truthy (Val.arr (x :: xs)) = true := by simp [truthy]

/-- C8: a Pod resource that passes the global checks (truthy kind,
api_version and metadata.name) and whose `spec.containers` holds exactly
one container — a dict with a non-empty string `name` and a falsy-or-absent
`image` — produces exactly one issue: an error whose path carries the
container's index 0 and whose message names the container by its name. -/
theorem C8_pod_missing_image
    (r : Resource) (md spec nv : Val) (ckvs : List (String × Val)) (nm : String)
    (hkind : r.kind = Val.str "Pod")
    (hapi : truthy r.api_version = true)
    (hmd : pyGet r.content "metadata" (Val.obj []) = .ok md)
    (hmdn : pyGet md "name" Val.null = .ok nv)
    (hnv : truthy nv = true)
    (hspec : pyGet r.content "spec" (Val.obj []) = .ok spec)
    (hst : truthy spec = true)
    (hcs : pyGet spec "containers" (Val.arr []) = .ok (Val.arr [Val.obj ckvs]))
    (hname : alGet ckvs "name" = some (Val.str nm))
    (hnm : nm ≠ "")
    (himg : truthy ((alGet ckvs "image").getD Val.null) = false) :
    validate_structure [r] =
      .ok (false,
        [⟨"error", "spec.containers[0].image",
          "Container '" ++ nm ++ "' missing image",
          "Specify the container image to run"⟩]) := by
  have hdep := check_deprecated_api_pod r.api_version
  have hnmB : (nm != "") = true := by simp [hnm]
  have hpath : "spec.containers[" ++ toString (0 : Nat) ++ "].image" =
      "spec.containers[0].image" := rfl
  simp only [validate_structure, collectIssues, resourceIssues, validate_pod,
    podContainerIssues, Bind.bind, Except.bind, pure, Except.pure,
    hkind, hapi, hmd, hmdn, hnv, hspec, hst, hcs, hdep,
    pyGet_obj, pyIter, hname, himg, hnmB, truthy_str, truthy_arr_cons, pyStr,
    Option.getD_some, Bool.not_false, Bool.not_true,
    List.any_cons, List.any_nil, hpath]
  simp

/-- The content of the C8 witness Pod: metadata.name `p`, one container
named `web` with no image. -/
def c8Content : Val :=
  .obj [("metadata", .obj [("name", .str "p")]),
        ("spec", .obj [("containers", .arr [.obj [("name", .str "web")]])])]

/-- The C8 witness Pod resource. -/
def c8Pod : Resource := ⟨.str "Pod", .str "v1", .str "p", .null, c8Content⟩

/-- C8 (witness): the concrete Pod `c8Pod` yields exactly the one
missing-image error for container `web` at index 0. -/
theorem C8_pod_missing_image_witness :
    validate_structure [c8Pod] =
      .ok (false,
        [⟨"error", "spec.containers[0].image", "Container 'web' missing image",
          "Specify the container image to run"⟩]) :=
  C8_pod_missing_image c8Pod (.obj [("name", .str "p")])
    (.obj [("containers", .arr [.obj [("name", .str "web")]])]) (.str "p")
    [("name", .str "web")] "web"
    rfl rfl rfl rfl rfl rfl rfl rfl rfl (by decide) rfl

/-! ## C10 — generated Deployments cannot trigger the mismatch warning -/

/-- A non-empty dict value is truthy. -/
theorem truthy_obj_cons (kv : String × Val) (kvs : List (String × Val)) :
    truthy (Val.obj (kv :: kvs)) = true := by simp [truthy]

/-- The `spec.selector.matchLabels` of a Deployment tree, read with the
same accesses the validator performs (yaml_service.py line 184). -/
def deploymentSelectorLabels (tree : Val) : Except String Val := do
  let spec ← pyGet tree "spec" (.obj [])
  let sel ← pyGet spec "selector" (.obj [])
  pyGet sel "matchLabels" (.obj [])

/-- The `spec.template.metadata.labels` of a Deployment tree, read with
the validator's accesses (line 185). -/
def deploymentTemplateLabels (tree : Val) : Except String Val := do
  let spec ← pyGet tree "spec" (.obj [])
  let tpl ← pyGet spec "template" (.obj [])
  let md ← pyGet tpl "metadata" (.obj [])
  pyGet md "labels" (.obj [])

/-- C10: for every configuration map the generated Deployment carries
`spec.selector.matchLabels` equal to `spec.template.metadata.labels`
(both are `app: name`), and validating the resource extracted from the
generated tree never produces an issue at the mismatch warning's path
`spec.selector.matchLabels`. -/
theorem C10_generated_selector_matches (config : List (String × Val)) :
    (deploymentSelectorLabels (generate_deployment config) =
        .ok (Val.obj [("app", cfgGet config "name" (Val.str "my-deployment"))]) ∧
      deploymentTemplateLabels (generate_deployment config) =
        deploymentSelectorLabels (generate_deployment config)) ∧
    ∃ valid issues,
      validate_structure
          [⟨Val.str "Deployment", Val.str "apps/v1",
            cfgGet config "name" (Val.str "my-deployment"), Val.null,
            generate_deployment config⟩] = .ok (valid, issues) ∧
      ∀ i ∈ issues, i.path ≠ "spec.selector.matchLabels" := by
  constructor
  · exact ⟨rfl, rfl⟩
  · by_cases hn : truthy (cfgGet config "name" (Val.str "my-deployment")) = true
    · refine ⟨true, [], ?_, by simp⟩
      simp [validate_structure, collectIssues, resourceIssues,
        validate_deployment, generate_deployment, Bind.bind, Except.bind, pure,
        Except.pure, pyGet_obj, pyContains, pySubscript, pyItems, alGet,
        val_str_beq, hn, truthy_str, truthy_arr_cons, truthy_obj_cons,
        mismatchWarnings, mismatchList,
        check_deprecated_api, deprecated_apis]
    · rw [Bool.not_eq_true] at hn
      refine ⟨false,
        [⟨"error", "metadata.name",
          "Missing required field 'metadata.name' in Deployment",
          "Every resource must have a name"⟩], ?_, ?_⟩
      · have hmsg : "Missing required field 'metadata.name' in " ++ pyStr (Val.str "Deployment") =
            "Missing required field 'metadata.name' in Deployment" := rfl
        simp [hmsg, validate_structure, collectIssues, resourceIssues,
          validate_deployment, generate_deployment, Bind.bind, Except.bind, pure,
          Except.pure, pyGet_obj, pyContains, pySubscript, pyItems, alGet,
          val_str_beq, hn, truthy_str, truthy_arr_cons, truthy_obj_cons,
          mismatchWarnings, mismatchList,
          check_deprecated_api, deprecated_apis]
      · intro i hi
        simp only [List.mem_singleton] at hi
        subst hi
        simp
